import Mathlib

/-!
Verification of the Feed-Service posts router (`src/routers/posts.py`,
`src/model.py`): a shallow embedding of its data model, SQL-backed state,
and HTTP handlers, with theorems settling the specification claims.
-/

set_option maxRecDepth 100000

namespace Feed

/-! ### Python-style datetime values

`Posts.created_at` is a `datetime`; `str(dt)` renders `"YYYY-MM-DD HH:MM:SS"`
while `dt.isoformat()` renders `"YYYY-MM-DDTHH:MM:SS"`. -/

structure DateTime where
  year : Nat
  month : Nat
  day : Nat
  hour : Nat
  minute : Nat
  second : Nat
deriving DecidableEq, Repr

def pad2 (n : Nat) : String :=
  if n < 10 then "0" ++ toString n else toString n

def pad4 (n : Nat) : String :=
  if n < 10 then "000" ++ toString n
  else if n < 100 then "00" ++ toString n
  else if n < 1000 then "0" ++ toString n
  else toString n

def DateTime.datePart (d : DateTime) : String :=
  pad4 d.year ++ "-" ++ pad2 d.month ++ "-" ++ pad2 d.day

def DateTime.timePart (d : DateTime) : String :=
  pad2 d.hour ++ ":" ++ pad2 d.minute ++ ":" ++ pad2 d.second

/-- Python `str(dt)` as `json.dumps(default=str)` would apply it. -/
def DateTime.pyStr (d : DateTime) : String :=
  d.datePart ++ " " ++ d.timePart

/-- Python `dt.isoformat()`. -/
def DateTime.isoformat (d : DateTime) : String :=
  d.datePart ++ "T" ++ d.timePart

/-- Linear key for `ORDER BY created_at`. -/
def DateTime.key (d : DateTime) : Nat :=
  ((((d.year * 13 + d.month) * 32 + d.day) * 25 + d.hour) * 61 + d.minute) * 61 + d.second

/-! ### JSON values

The dictionaries the handlers build and serialize.  A `dt` leaf is a raw
`datetime` object still sitting in a dict (serialized through
`default=str`); handlers convert it to `.str (isoformat …)` explicitly. -/

inductive JValue where
  | null : JValue
  | bool : Bool → JValue
  | num : Int → JValue
  | str : String → JValue
  | dt : DateTime → JValue
  | arr : List JValue → JValue
  | obj : List (String × JValue) → JValue

/-! ### `json.dumps(data, sort_keys=True, default=str)` -/

def hexCharList : List Char := "0123456789abcdef".data

def nibbleChar (n : Nat) : Char := hexCharList.getD (n % 16) '0'

def hex4 (n : Nat) : String :=
  String.mk [nibbleChar (n / 4096), nibbleChar (n / 256), nibbleChar (n / 16), nibbleChar n]

/-- JSON string escaping with `ensure_ascii=True` (the `json.dumps` default). -/
def escChar (c : Char) : String :=
  if c = '"' then "\\\""
  else if c = '\\' then "\\\\"
  else if c = '\n' then "\\n"
  else if c = '\t' then "\\t"
  else if c = '\r' then "\\r"
  else if c = '\x08' then "\\b"
  else if c = '\x0c' then "\\f"
  else if c.toNat < 32 then "\\u" ++ hex4 c.toNat
  else if c.toNat < 127 then String.singleton c
  else if c.toNat < 65536 then "\\u" ++ hex4 c.toNat
  else
    let v := c.toNat - 65536
    "\\u" ++ hex4 (55296 + v / 1024) ++ "\\u" ++ hex4 (56320 + v % 1024)

def jstr (s : String) : String :=
  "\"" ++ String.join (s.data.map escChar) ++ "\""

/-- Code-point lexicographic comparison, which is how Python compares `str`
values (and so how `sorted` orders the keys under `sort_keys=True`). -/
def charListLe : List Char → List Char → Bool
  | [], _ => true
  | _ :: _, [] => false
  | a :: as, b :: bs =>
    if a.toNat < b.toNat then true
    else if b.toNat < a.toNat then false
    else charListLe as bs

def strLeb (a b : String) : Bool := charListLe a.data b.data

/-- Sort an object's (key, serialized-value) pairs by key, as `sort_keys=True`
does. -/
def sortPairs (l : List (String × String)) : List (String × String) :=
  List.insertionSort (fun a b => strLeb a.1 b.1 = true) l

/-- Serialization with explicit recursion fuel so the definition is
structural (and hence kernel-evaluable).  `dumps` instantiates the fuel with
CPython's default recursion limit; the encoder in the source likewise fails
on payloads nested beyond that limit, and the service's payloads are at most
four levels deep. -/
def dumpsF : Nat → JValue → String
  | 0, _ => ""
  | fuel + 1, v =>
    match v with
    | .null => "null"
    | .bool b => if b then "true" else "false"
    | .num n => toString n
    | .str s => jstr s
    | .dt d => jstr d.pyStr
    | .arr l => "[" ++ String.intercalate ", " (l.map (dumpsF fuel)) ++ "]"
    | .obj kvs =>
        "\x7b" ++ String.intercalate ", "
          ((sortPairs (kvs.map (fun kv => (kv.1, dumpsF fuel kv.2)))).map
            (fun kv => jstr kv.1 ++ ": " ++ kv.2)) ++ "\x7d"

def jsonFuel : Nat := 1000

def dumps (v : JValue) : String := dumpsF jsonFuel v

/-! ### MD5 (`hashlib.md5(...).hexdigest()`)

Machine words are `Nat` reduced mod `2^32`. -/

def M32 : Nat := 4294967296

def wadd (a b : Nat) : Nat := (a + b) % M32

def wnot (a : Nat) : Nat := a ^^^ 4294967295

def rotl (x s : Nat) : Nat := ((x <<< s) % M32) ||| (x >>> (32 - s))

def md5K : List Nat :=
  [0xd76aa478, 0xe8c7b756, 0x242070db, 0xc1bdceee,
   0xf57c0faf, 0x4787c62a, 0xa8304613, 0xfd469501,
   0x698098d8, 0x8b44f7af, 0xffff5bb1, 0x895cd7be,
   0x6b901122, 0xfd987193, 0xa679438e, 0x49b40821,
   0xf61e2562, 0xc040b340, 0x265e5a51, 0xe9b6c7aa,
   0xd62f105d, 0x02441453, 0xd8a1e681, 0xe7d3fbc8,
   0x21e1cde6, 0xc33707d6, 0xf4d50d87, 0x455a14ed,
   0xa9e3e905, 0xfcefa3f8, 0x676f02d9, 0x8d2a4c8a,
   0xfffa3942, 0x8771f681, 0x6d9d6122, 0xfde5380c,
   0xa4beea44, 0x4bdecfa9, 0xf6bb4b60, 0xbebfbc70,
   0x289b7ec6, 0xeaa127fa, 0xd4ef3085, 0x04881d05,
   0xd9d4d039, 0xe6db99e5, 0x1fa27cf8, 0xc4ac5665,
   0xf4292244, 0x432aff97, 0xab9423a7, 0xfc93a039,
   0x655b59c3, 0x8f0ccc92, 0xffeff47d, 0x85845dd1,
   0x6fa87e4f, 0xfe2ce6e0, 0xa3014314, 0x4e0811a1,
   0xf7537e82, 0xbd3af235, 0x2ad7d2bb, 0xeb86d391]

def md5S : List Nat :=
  (List.replicate 4 [7, 12, 17, 22] ++ List.replicate 4 [5, 9, 14, 20] ++
   List.replicate 4 [4, 11, 16, 23] ++ List.replicate 4 [6, 10, 15, 21]).join

def md5F (i b c d : Nat) : Nat :=
  if i < 16 then (b &&& c) ||| (wnot b &&& d)
  else if i < 32 then (d &&& b) ||| (wnot d &&& c)
  else if i < 48 then b ^^^ c ^^^ d
  else c ^^^ (b ||| wnot d)

def md5G (i : Nat) : Nat :=
  if i < 16 then i
  else if i < 32 then (5 * i + 1) % 16
  else if i < 48 then (3 * i + 5) % 16
  else (7 * i) % 16

def chunkWord (chunk : List Nat) (g : Nat) : Nat :=
  chunk.getD (4 * g) 0 + 256 * chunk.getD (4 * g + 1) 0 +
    65536 * chunk.getD (4 * g + 2) 0 + 16777216 * chunk.getD (4 * g + 3) 0

def md5Round (chunk : List Nat) (st : Nat × Nat × Nat × Nat) (i : Nat) :
    Nat × Nat × Nat × Nat :=
  let a := st.1; let b := st.2.1; let c := st.2.2.1; let d := st.2.2.2
  let f := wadd (wadd (wadd (md5F i b c d) a) (md5K.getD i 0)) (chunkWord chunk (md5G i))
  (d, wadd b (rotl f (md5S.getD i 0)), b, c)

def md5Chunk (st : Nat × Nat × Nat × Nat) (chunk : List Nat) : Nat × Nat × Nat × Nat :=
  let r := (List.range 64).foldl (md5Round chunk) st
  (wadd st.1 r.1, wadd st.2.1 r.2.1, wadd st.2.2.1 r.2.2.1, wadd st.2.2.2 r.2.2.2)

def le64 (n : Nat) : List Nat :=
  [n % 256, n / 256 % 256, n / 65536 % 256, n / 16777216 % 256,
   n / 4294967296 % 256, n / 1099511627776 % 256,
   n / 281474976710656 % 256, n / 72057594037927936 % 256]

def md5Pad (msg : List Nat) : List Nat :=
  let len := msg.length
  msg ++ [128] ++ List.replicate ((119 - len % 64) % 64) 0 ++ le64 (8 * len % 18446744073709551616)

def chunks64Go : Nat → List Nat → List (List Nat)
  | 0, _ => []
  | _, [] => []
  | fuel + 1, a :: t => (a :: t).take 64 :: chunks64Go fuel ((a :: t).drop 64)

def chunks64 (l : List Nat) : List (List Nat) := chunks64Go l.length l

def wordLE (w : Nat) : List Nat :=
  [w % 256, w / 256 % 256, w / 65536 % 256, w / 16777216 % 256]

def md5Bytes (msg : List Nat) : List Nat :=
  let r := (chunks64 (md5Pad msg)).foldl md5Chunk
    (0x67452301, 0xefcdab89, 0x98badcfe, 0x10325476)
  wordLE r.1 ++ wordLE r.2.1 ++ wordLE r.2.2.1 ++ wordLE r.2.2.2

def byteHexChars (b : Nat) : List Char := [nibbleChar (b / 16), nibbleChar b]

def bytesToHexChars (bs : List Nat) : List Char := bs.flatMap byteHexChars

/-- UTF-8 encoding of one character (`str.encode()`). -/
def charUtf8 (c : Char) : List Nat :=
  let n := c.toNat
  if n < 128 then [n]
  else if n < 2048 then [192 ||| (n >>> 6), 128 ||| (n &&& 63)]
  else if n < 65536 then
    [224 ||| (n >>> 12), 128 ||| ((n >>> 6) &&& 63), 128 ||| (n &&& 63)]
  else
    [240 ||| (n >>> 18), 128 ||| ((n >>> 12) &&& 63),
     128 ||| ((n >>> 6) &&& 63), 128 ||| (n &&& 63)]

def strBytes (s : String) : List Nat := s.data.flatMap charUtf8

def md5HexOfString (s : String) : String := String.mk (bytesToHexChars (md5Bytes (strBytes s)))

/-- Model of `generate_etag` (posts.py lines 40–43): serialize with sorted keys and
`default=str`, then MD5-hexdigest. -/
def generate_etag (data : JValue) : String :=
  md5HexOfString (dumps data)

/-! ### Relational state

`Posts`, `Interests` and `PostInterests` rows; `nextId` models the
auto-increment counter behind `cur.lastrowid`. -/

structure PostRow where
  post_id : Int
  title : String
  body : Option String
  image_url : Option String
  created_by : Int
  created_at : DateTime
deriving DecidableEq, Repr

structure InterestRow where
  interest_id : Int
  interest_name : String
deriving DecidableEq, Repr

structure DB where
  posts : List PostRow
  interests : List InterestRow
  postInterests : List (Int × Int)
  nextId : Int
deriving DecidableEq, Repr

/-! ### Requests, responses, Python truthiness -/

/-- Request headers. Lookup is case-insensitive, as in Starlette. -/
abbrev Headers := List (String × String)

def lowerStr (s : String) : String := String.mk (s.data.map Char.toLower)

def headerGet (hs : Headers) (name : String) : Option String :=
  (hs.find? (fun kv => lowerStr kv.1 == lowerStr name)).map Prod.snd

/-- Python `a or b` on two optional strings (`None` and `""` are falsy). -/
def pyOrStr (a b : Option String) : Option String :=
  match a with
  | some s => if s ≠ "" then some s else b
  | none => b

def pyTruthyStr : Option String → Bool
  | none => false
  | some s => s ≠ ""

def pyTruthyInt : Option Int → Bool
  | none => false
  | some i => i ≠ 0

structure Resp where
  status : Nat
  body : Option JValue

def errResp (status : Nat) (detail : String) : Resp :=
  ⟨status, some (.obj [("detail", .str detail)])⟩

/-- Model of `get_firebase_uid_from_header` (lines 30–35): `none` means the handler
raised 401 (header absent or empty, both lookups hitting the same
case-insensitive map). -/
def get_firebase_uid_from_header (hs : Headers) : Option String :=
  let firebase_uid := pyOrStr (headerGet hs "x-firebase-uid") (headerGet hs "X-Firebase-Uid")
  if pyTruthyStr firebase_uid then firebase_uid else none

def resp401 : Resp :=
  errResp 401 "Authentication required - x-firebase-uid header missing"

/-! ### Store reads and row enrichment -/

def fetchPost (db : DB) (pid : Int) : Option PostRow :=
  db.posts.find? (fun r => r.post_id == pid)

def interestExists (db : DB) (iid : Int) : Bool :=
  db.interests.any (fun i => i.interest_id == iid)

/-- Model of `get_post_interests` (lines 62–75): join through `PostInterests`.  Runs on
a fresh connection, hence always over committed state. -/
def get_post_interests (db : DB) (pid : Int) : List JValue :=
  (db.interests.filter
      (fun i => db.postInterests.any (fun pr => pr.1 == pid && pr.2 == i.interest_id))).map
    (fun i => .obj [("interest_id", .num i.interest_id), ("interest_name", .str i.interest_name)])

def optStrJ : Option String → JValue
  | none => .null
  | some s => .str s

/-- The dict a `SELECT post_id, title, body, image_url, created_by, created_at`
row comes back as. -/
def postDict (r : PostRow) : List (String × JValue) :=
  [("post_id", .num r.post_id), ("title", .str r.title), ("body", optStrJ r.body),
   ("image_url", optStrJ r.image_url), ("created_by", .num r.created_by),
   ("created_at", .dt r.created_at)]

/-- The conversion `if post.get('created_at') and isinstance(post['created_at'], datetime):
post['created_at'] = post['created_at'].isoformat()`. -/
def convertCreatedAt (kvs : List (String × JValue)) : List (String × JValue) :=
  kvs.map (fun kv =>
    match kv with
    | ("created_at", .dt d) => ("created_at", .str d.isoformat)
    | other => other)

/-- Model of `add_links` (lines 49–56). -/
def add_links (post_id : Int) (base_url : String := "") : List (String × JValue) :=
  [("self", .obj [("href", .str (base_url ++ "/posts/" ++ toString post_id))]),
   ("collection", .obj [("href", .str (base_url ++ "/posts"))]),
   ("interests", .obj [("href", .str (base_url ++ "/posts/" ++ toString post_id ++ "/interests"))]),
   ("author", .obj [("href", .str (base_url ++ "/users/" ++ toString post_id))])]

/-- Python `s.strip('"')`: drop every leading and trailing `"`. -/
def stripQuotes (s : String) : String :=
  String.mk (((s.data.dropWhile (fun c => c == '"')).reverse.dropWhile
    (fun c => c == '"')).reverse)

/-! ### GET /posts/{id} -/

/-- The enriched dict `get_post` fingerprints: row fields, `interests` added,
`created_at` converted to its isoformat string. -/
def getPostEnriched (db : DB) (r : PostRow) (pid : Int) : List (String × JValue) :=
  convertCreatedAt (postDict r ++ [("interests", .arr (get_post_interests db pid))])

/-- Model of `get_post` (lines 173–217).  The `request` argument is taken but the
handler performs no identity check, faithfully to the source. -/
def get_post (db : DB) (hs : Headers) (post_id : Int) (if_none_match : Option String) :
    Resp × DB :=
  let _ := hs
  match fetchPost db post_id with
  | none => (errResp 404 "Post not found", db)
  | some post =>
    let enriched := getPostEnriched db post post_id
    let etag := generate_etag (.obj enriched)
    if (match if_none_match with
        | some t => t ≠ "" && stripQuotes t == etag
        | none => false) then
      (⟨304, none⟩, db)
    else
      (⟨200, some (.obj (enriched ++ [("links", .obj (add_links post_id))]))⟩, db)

/-! ### GET /posts (list) -/

def pageHref (skip limit : Int) : String :=
  "/posts?skip=" ++ toString skip ++ "&limit=" ++ toString limit

def containsSubAux : List Char → List Char → Bool
  | n, [] => n.isEmpty
  | n, c :: t => n.isPrefixOf (c :: t) || containsSubAux n t

/-- Meaning of `col LIKE '%needle%'` under MySQL's default case-insensitive collation,
for needles without wildcard metacharacters. -/
def sqlLike (needle hay : String) : Bool :=
  containsSubAux (lowerStr needle).data (lowerStr hay).data

/-- The WHERE clause built in lines 102–117: each filter is appended only when
its parameter is truthy (so `None`, `0` and `""` all skip the clause), and the
clauses are joined with AND. -/
def rowMatches (db : DB) (interest_id created_by : Option Int) (search : Option String)
    (p : PostRow) : Bool :=
  (if pyTruthyInt interest_id then
      db.postInterests.any (fun pr => pr.1 == p.post_id && pr.2 == interest_id.getD 0)
    else true) &&
  (if pyTruthyInt created_by then p.created_by == created_by.getD 0 else true) &&
  (if pyTruthyStr search then
      (sqlLike (search.getD "") p.title ||
        (match p.body with
         | some b => sqlLike (search.getD "") b
         | none => false))
    else true)

def orderByCreatedDesc (l : List PostRow) : List PostRow :=
  List.insertionSort (fun a b => b.created_at.key ≤ a.created_at.key) l

/-- Per-item enrichment in the listing loop (lines 141–148); `if post_id:`
skips enrichment for a falsy id. -/
def enrichItem (db : DB) (p : PostRow) : JValue :=
  let d := postDict p
  let d := if p.post_id ≠ 0 then
      d ++ [("interests", .arr (get_post_interests db p.post_id)),
            ("links", .obj (add_links p.post_id))]
    else d
  .obj (convertCreatedAt d)

structure ListOut where
  pageRows : List PostRow
  items : List JValue
  total : Int
  skip : Int
  limit : Int
  has_more : Bool
  link_self : String
  link_first : String
  link_last : String
  link_next : Option String
  link_prev : Option String

/-- Model of `get_posts` (lines 81–170).  `link_next`/`link_prev` are `none` exactly
when the source puts JSON `null` under that key. -/
def get_posts (db : DB) (hs : Headers) (skip limit : Int)
    (interest_id created_by : Option Int) (search : Option String) :
    Except Resp ListOut :=
  if (get_firebase_uid_from_header hs).isNone then .error resp401
  else
    let filtered := db.posts.filter (rowMatches db interest_id created_by search)
    let total : Int := filtered.length
    let page := ((orderByCreatedDesc filtered).drop skip.toNat).take limit.toNat
    .ok {
      pageRows := page
      items := page.map (enrichItem db)
      total := total
      skip := skip
      limit := limit
      has_more := skip + limit < total
      link_self := pageHref skip limit
      link_first := pageHref 0 limit
      link_last := pageHref (max 0 ((total - 1).fdiv limit * limit)) limit
      link_next := if skip + limit < total then some (pageHref (skip + limit) limit) else none
      link_prev := if skip > 0 then some (pageHref (max 0 (skip - limit)) limit) else none
    }

/-! ### Mutating statements

A handler's connection has autocommit off: statements act on a working copy,
`cnx.commit()` publishes it, and closing the connection on an error path
discards whatever was not committed. -/

/-- One `col = %s` assignment of the dynamic UPDATE applied to a row. -/
def applyField (r : PostRow) (kv : String × String) : PostRow :=
  if kv.1 == "title" then { r with title := kv.2 }
  else if kv.1 == "body" then { r with body := some kv.2 }
  else if kv.1 == "image_url" then { r with image_url := some kv.2 }
  else r

def dbUpdatePost (db : DB) (pid : Int) (fs : List (String × String)) : DB :=
  { db with posts := db.posts.map (fun r =>
      if r.post_id == pid then fs.foldl applyField r else r) }

def dbDeleteAssoc (db : DB) (pid : Int) : DB :=
  { db with postInterests := db.postInterests.filter (fun pr => !(pr.1 == pid)) }

def dbInsertAssoc (db : DB) (pid iid : Int) : DB :=
  { db with postInterests := db.postInterests ++ [(pid, iid)] }

/-- The association insert loop shared by create (lines 254–266) and update
(lines 369–381): each id is checked against `Interests`; on a missing id the
connection closes, dropping `work` and leaving `committed` as the final
state. -/
def insertAssocLoop (committed work : DB) (pid : Int) : List Int → Except (Resp × DB) DB
  | [] => .ok work
  | iid :: rest =>
    if interestExists work iid then
      insertAssocLoop committed (dbInsertAssoc work pid iid) pid rest
    else
      .error (errResp 400 ("Interest " ++ toString iid ++ " not found"), committed)

/-! ### POST /posts -/

/-- Schema `PostCreate` (model.py): `title`, optional `body`/`image_url`, and
`interest_ids` defaulting to `[]`.  It declares no `created_by` field. -/
structure PostCreate where
  title : String
  body : Option String
  image_url : Option String
  interest_ids : Option (List Int)
deriving Repr

/-- Model of `create_post` (lines 220–293).  After the identity check the handler
evaluates `post.created_by` (line 241), but `PostCreate` declares no such
field, so pydantic raises `AttributeError` before any SQL statement runs;
the framework surfaces the unhandled exception as a 500 response and the
store is untouched. -/
def create_post (db : DB) (hs : Headers) (p : PostCreate) : Resp × DB :=
  let _ := p
  if (get_firebase_uid_from_header hs).isNone then (resp401, db)
  else (⟨500, some (.str "Internal Server Error")⟩, db)

/-- Lines 236–293 of `create_post` as they would execute on a payload carrying
the `created_by` the code tries to read: insert the post and commit at once,
then validate/insert associations, committing only after the whole batch. -/
def create_post_body (db : DB) (title : String) (body image_url : Option String)
    (created_by : Int) (interest_ids : Option (List Int)) (now : DateTime) : Resp × DB :=
  let pid := db.nextId
  let committed1 : DB :=
    { db with posts := db.posts ++ [⟨pid, title, body, image_url, created_by, now⟩],
              nextId := pid + 1 }
  if pid == 0 then (errResp 500 "Failed to create post", committed1)
  else
    let afterAssoc : Except (Resp × DB) DB :=
      match interest_ids with
      | some ids =>
        if ids.isEmpty then .ok committed1 else insertAssocLoop committed1 committed1 pid ids
      | none => .ok committed1
    match afterAssoc with
    | .error e => e
    | .ok committed2 =>
      match fetchPost committed2 pid with
      | none => (errResp 500 "Failed to retrieve created post", committed2)
      | some r =>
        let enriched := convertCreatedAt (postDict r ++
          [("interests", .arr (get_post_interests committed2 pid)),
           ("links", .obj (add_links pid))])
        (⟨201, some (.obj enriched)⟩, committed2)

/-! ### PUT /posts/{id} -/

/-- Schema `PostUpdate` (model.py) under `dict(exclude_unset=True)`: the outer
`Option` is "was the field present in the request", the inner one is its
value-or-null. -/
structure PostUpdate where
  title : Option (Option String)
  body : Option (Option String)
  image_url : Option (Option String)
  interest_ids : Option (Option (List Int))
deriving Repr

/-- Lines 344–356: fields present in the payload and not null become column
assignments, in pydantic field order. -/
def updateFields (p : PostUpdate) : List (String × String) :=
  (match p.title with | some (some v) => [("title", v)] | _ => []) ++
  (match p.body with | some (some v) => [("body", v)] | _ => []) ++
  (match p.image_url with | some (some v) => [("image_url", v)] | _ => [])

/-- The extraction `update_dict.pop('interest_ids', None)` followed by
`if interest_ids is not None`. -/
def updInterestIds (p : PostUpdate) : Option (List Int) :=
  match p.interest_ids with
  | some (some l) => some l
  | _ => none

/-- Lines 384–409: re-fetch the updated post, enrich and respond 200. -/
def updateFinish (db : DB) (pid : Int) : Resp × DB :=
  match fetchPost db pid with
  | none => (errResp 500 "Failed to retrieve updated post", db)
  | some r =>
    let enriched := convertCreatedAt (postDict r ++
      [("interests", .arr (get_post_interests db pid)),
       ("links", .obj (add_links pid))])
    (⟨200, some (.obj enriched)⟩, db)

/-- Model of `update_post` after the precondition gate (lines 344–409): the dynamic
UPDATE is committed on its own (line 362) before the association replace, so
a mid-batch failure keeps the field assignments while the uncommitted
delete/insert statements are rolled back. -/
def update_core (db : DB) (post_id : Int) (p : PostUpdate) : Resp × DB :=
  let fs := updateFields p
  let committed1 := if fs.isEmpty then db else dbUpdatePost db post_id fs
  match updInterestIds p with
  | none => updateFinish committed1 post_id
  | some ids =>
    match insertAssocLoop committed1 (dbDeleteAssoc committed1 post_id) post_id ids with
    | .error e => e
    | .ok committed2 => updateFinish committed2 post_id

/-- The fingerprint the If-Match gate recomputes (lines 336–338): the freshly
fetched row with its interests, `created_at` still a raw datetime. -/
def updateExistingEtag (db : DB) (existing : PostRow) (post_id : Int) : String :=
  generate_etag (.obj (postDict existing ++
    [("interests", .arr (get_post_interests db post_id))]))

/-- Model of `update_post` (lines 296–409). -/
def update_post (db : DB) (hs : Headers) (post_id : Int) (p : PostUpdate)
    (created_by : Int) (if_match : Option String) : Resp × DB :=
  if (get_firebase_uid_from_header hs).isNone then (resp401, db)
  else
    match fetchPost db post_id with
    | none => (errResp 404 "Post not found", db)
    | some existing =>
      if existing.created_by ≠ created_by then
        (errResp 403 "You can only update posts you created", db)
      else
        match if_match with
        | some t =>
          if t ≠ "" then
            if stripQuotes t ≠ updateExistingEtag db existing post_id then
              (errResp 412 "Precondition Failed: eTag mismatch", db)
            else update_core db post_id p
          else update_core db post_id p
        | none => update_core db post_id p

/-! ### DELETE /posts/{id} -/

/-- Model of `delete_post` (lines 412–451).  Only the `Posts` row is deleted; no
statement touches `PostInterests`. -/
def delete_post (db : DB) (hs : Headers) (post_id : Int) (created_by : Int) : Resp × DB :=
  if (get_firebase_uid_from_header hs).isNone then (resp401, db)
  else
    match fetchPost db post_id with
    | none => (errResp 404 "Post not found", db)
    | some post =>
      if post.created_by ≠ created_by then
        (errResp 403 "You can only delete posts you created", db)
      else
        (⟨200, some (.obj [("status", .str "deleted"), ("post_id", .num post_id)])⟩,
         { db with posts := db.posts.filter (fun r => !(r.post_id == post_id)) })

/-! ### GET /posts/interests/ -/

/-- Model of `get_interests` (lines 457–467): all interests ordered by name. -/
def get_interests (db : DB) (hs : Headers) : Resp × DB :=
  if (get_firebase_uid_from_header hs).isNone then (resp401, db)
  else
    (⟨200, some (.arr ((List.insertionSort
        (fun a b => strLeb a.interest_name b.interest_name = true) db.interests).map
      (fun i => .obj [("interest_id", .num i.interest_id),
                      ("interest_name", .str i.interest_name)])))⟩, db)

/-- Rows of the successful list page, for stating claims about list results. -/
def get_posts_rows (db : DB) (hs : Headers) (skip limit : Int)
    (interest_id created_by : Option Int) (search : Option String) : List PostRow :=
  match get_posts db hs skip limit interest_id created_by search with
  | .ok o => o.pageRows
  | .error _ => []

/-! ### Concrete fixtures used by witnesses and counterexamples -/

def dtA : DateTime := ⟨2026, 1, 2, 3, 4, 5⟩

def dtB : DateTime := ⟨2026, 2, 3, 4, 5, 6⟩

def rowA : PostRow := ⟨1, "Hello", some "World", none, 7, dtA⟩

def rowB : PostRow := ⟨2, "Second", none, none, 8, dtB⟩

def db0 : DB := ⟨[rowA, rowB], [⟨1, "music"⟩, ⟨2, "sports"⟩], [(1, 1), (1, 2)], 3⟩

def hs0 : Headers := [("X-Firebase-Uid", "uid-1")]

def db25 : DB :=
  ⟨(List.range 25).map (fun i => ⟨(i : Int) + 1, "t", none, none, 1, dtA⟩), [], [], 26⟩

/-! ## Supporting lemmas -/

theorem applyField_post_id (r : PostRow) (kv : String × String) :
    (applyField r kv).post_id = r.post_id := by
  unfold applyField
  split <;> try rfl
  split <;> try rfl
  split <;> rfl

theorem applyField_created_by (r : PostRow) (kv : String × String) :
    (applyField r kv).created_by = r.created_by := by
  unfold applyField
  split <;> try rfl
  split <;> try rfl
  split <;> rfl

theorem foldl_applyField_post_id (fs : List (String × String)) (r : PostRow) :
    (fs.foldl applyField r).post_id = r.post_id := by
  induction fs generalizing r with
  | nil => rfl
  | cons kv t ih => rw [List.foldl_cons, ih, applyField_post_id]

theorem foldl_applyField_created_by (fs : List (String × String)) (r : PostRow) :
    (fs.foldl applyField r).created_by = r.created_by := by
  induction fs generalizing r with
  | nil => rfl
  | cons kv t ih => rw [List.foldl_cons, ih, applyField_created_by]

theorem md5Bytes_length (bs : List Nat) : (md5Bytes bs).length = 16 := by
  unfold md5Bytes wordLE
  simp

theorem bytesToHexChars_length (bs : List Nat) :
    (bytesToHexChars bs).length = 2 * bs.length := by
  induction bs with
  | nil => rfl
  | cons b t ih =>
    simp only [bytesToHexChars, List.flatMap_cons] at *
    simp [byteHexChars, ih]
    ring

theorem md5HexOfString_length (s : String) : (md5HexOfString s).length = 32 := by
  show (bytesToHexChars (md5Bytes (strBytes s))).length = 32
  rw [bytesToHexChars_length, md5Bytes_length]

theorem generate_etag_length (v : JValue) : (generate_etag v).length = 32 :=
  md5HexOfString_length _

theorem charListLe_total : ∀ a b : List Char, charListLe a b = true ∨ charListLe b a = true := by
  intro a
  induction a with
  | nil => intro b; exact Or.inl rfl
  | cons x xs ih =>
    intro b
    cases b with
    | nil => exact Or.inr rfl
    | cons y ys =>
      by_cases h1 : x.toNat < y.toNat
      · left
        simp [charListLe, h1]
      · by_cases h2 : y.toNat < x.toNat
        · right
          simp [charListLe, h2]
        · rcases ih ys with h | h
          · left
            simp [charListLe, h1, h2, h]
          · right
            simp [charListLe, h1, h2, h]

theorem charListLe_trans :
    ∀ a b c : List Char, charListLe a b = true → charListLe b c = true →
      charListLe a c = true := by
  intro a
  induction a with
  | nil => intro b c _ _; rfl
  | cons x xs ih =>
    intro b c hab hbc
    cases b with
    | nil => simp [charListLe] at hab
    | cons y ys =>
      cases c with
      | nil => simp [charListLe] at hbc
      | cons z zs =>
        simp only [charListLe] at hab hbc ⊢
        by_cases h1 : x.toNat < y.toNat
        · by_cases h2 : y.toNat < z.toNat
          · rw [if_pos (by omega : x.toNat < z.toNat)]
          · by_cases h4 : z.toNat < y.toNat
            · rw [if_neg h2, if_pos h4] at hbc
              exact Bool.noConfusion hbc
            · rw [if_pos (by omega : x.toNat < z.toNat)]
        · by_cases h3 : y.toNat < x.toNat
          · rw [if_neg h1, if_pos h3] at hab
            exact Bool.noConfusion hab
          · rw [if_neg h1, if_neg h3] at hab
            by_cases h2 : y.toNat < z.toNat
            · rw [if_pos (by omega : x.toNat < z.toNat)]
            · by_cases h4 : z.toNat < y.toNat
              · rw [if_neg h2, if_pos h4] at hbc
                exact Bool.noConfusion hbc
              · rw [if_neg h2, if_neg h4] at hbc
                rw [if_neg (by omega : ¬x.toNat < z.toNat),
                  if_neg (by omega : ¬z.toNat < x.toNat)]
                exact ih ys zs hab hbc

theorem charListLe_antisymm :
    ∀ a b : List Char, charListLe a b = true → charListLe b a = true → a = b := by
  intro a
  induction a with
  | nil =>
    intro b _ hba
    cases b with
    | nil => rfl
    | cons y ys => simp [charListLe] at hba
  | cons x xs ih =>
    intro b hab hba
    cases b with
    | nil => simp [charListLe] at hab
    | cons y ys =>
      simp only [charListLe] at hab hba
      by_cases h1 : x.toNat < y.toNat
      · rw [if_neg (by omega : ¬y.toNat < x.toNat), if_pos h1] at hba
        exact Bool.noConfusion hba
      · by_cases h2 : y.toNat < x.toNat
        · rw [if_neg h1, if_pos h2] at hab
          exact Bool.noConfusion hab
        · rw [if_neg h1, if_neg h2] at hab
          rw [if_neg h2, if_neg h1] at hba
          have hx : x = y := by
            have hv : x.val.toNat = y.val.toNat := by
              show x.toNat = y.toNat
              omega
            have hy : x.val = y.val := UInt32.eq_of_val_eq (Fin.ext hv)
            exact Char.ext hy
          rw [hx, ih ys hab hba]

theorem strLeb_antisymm (a b : String) (h1 : strLeb a b = true) (h2 : strLeb b a = true) :
    a = b := by
  cases a with
  | mk da =>
    cases b with
    | mk db => exact congrArg String.mk (charListLe_antisymm da db h1 h2)

theorem pairwise_ne_of_nodup_map {α β : Type _} (f : α → β) (l : List α)
    (h : (l.map f).Nodup) : l.Pairwise (fun a b => f a ≠ f b) := by
  induction l with
  | nil => exact List.Pairwise.nil
  | cons a t ih =>
    rw [List.map_cons, List.nodup_cons] at h
    refine List.Pairwise.cons (fun b hb heq => ?_) (ih h.2)
    exact h.1 (heq ▸ List.mem_map_of_mem f hb)

theorem sortPairs_eq_of_perm (l1 l2 : List (String × String)) (hperm : l1.Perm l2)
    (hnd : (l1.map Prod.fst).Nodup) : sortPairs l1 = sortPairs l2 := by
  haveI hto : IsTotal (String × String) (fun a b => strLeb a.1 b.1 = true) :=
    ⟨fun a b => charListLe_total a.1.data b.1.data⟩
  haveI htr : IsTrans (String × String) (fun a b => strLeb a.1 b.1 = true) :=
    ⟨fun a b c hab hbc => charListLe_trans a.1.data b.1.data c.1.data hab hbc⟩
  have hs1 := List.sorted_insertionSort (fun a b : String × String => strLeb a.1 b.1 = true) l1
  have hs2 := List.sorted_insertionSort (fun a b : String × String => strLeb a.1 b.1 = true) l2
  have hp : (sortPairs l1).Perm (sortPairs l2) :=
    ((List.perm_insertionSort _ l1).trans hperm).trans (List.perm_insertionSort _ l2).symm
  have hnd1 : ((sortPairs l1).map Prod.fst).Nodup :=
    (((List.perm_insertionSort _ l1).map Prod.fst).nodup_iff).mpr hnd
  have hnd2 : ((sortPairs l2).map Prod.fst).Nodup :=
    ((hp.symm.map Prod.fst).nodup_iff).mpr hnd1
  have key : ∀ l : List (String × String),
      List.Sorted (fun a b : String × String => strLeb a.1 b.1 = true) l →
      (l.map Prod.fst).Nodup →
      List.Sorted
        (fun a b : String × String => (strLeb a.1 b.1 = true ∧ a.1 ≠ b.1) ∨ a = b) l := by
    intro l hsor hnod
    have hne := pairwise_ne_of_nodup_map Prod.fst l hnod
    exact (hsor.and hne).imp (fun h => Or.inl ⟨h.1, h.2⟩)
  haveI : IsAntisymm (String × String)
      (fun a b => (strLeb a.1 b.1 = true ∧ a.1 ≠ b.1) ∨ a = b) := by
    refine ⟨fun a b hab hba => ?_⟩
    rcases hab with ⟨h, hne⟩ | h
    · rcases hba with ⟨h', _⟩ | h'
      · exact absurd (strLeb_antisymm a.1 b.1 h h') hne
      · exact h'.symm
    · exact h
  exact List.eq_of_perm_of_sorted hp (key _ hs1 hnd1) (key _ hs2 hnd2)

theorem dumps_obj_perm (kvs1 kvs2 : List (String × JValue))
    (hnd : (kvs1.map Prod.fst).Nodup) (hperm : kvs1.Perm kvs2) :
    dumps (.obj kvs1) = dumps (.obj kvs2) := by
  show "\x7b" ++ String.intercalate ", "
      ((sortPairs (kvs1.map (fun kv => (kv.1, dumpsF 999 kv.2)))).map
        (fun kv => jstr kv.1 ++ ": " ++ kv.2)) ++ "\x7d" =
    "\x7b" ++ String.intercalate ", "
      ((sortPairs (kvs2.map (fun kv => (kv.1, dumpsF 999 kv.2)))).map
        (fun kv => jstr kv.1 ++ ": " ++ kv.2)) ++ "\x7d"
  rw [sortPairs_eq_of_perm _ _ (hperm.map _) (by simpa [Function.comp] using hnd)]

theorem updateFinish_snd (d : DB) (pid : Int) : (updateFinish d pid).2 = d := by
  unfold updateFinish
  split
  · rfl
  · rfl

theorem insertAssocLoop_cases (committed : DB) (pid : Int) (ids : List Int) :
    ∀ work : DB,
      (∃ resp, insertAssocLoop committed work pid ids = .error (resp, committed)) ∨
      (∃ d, insertAssocLoop committed work pid ids = .ok d ∧ d.posts = work.posts ∧
        d.interests = work.interests ∧ d.nextId = work.nextId) := by
  induction ids with
  | nil => exact fun work => Or.inr ⟨work, rfl, rfl, rfl, rfl⟩
  | cons iid rest ih =>
    intro work
    unfold insertAssocLoop
    split
    · rcases ih (dbInsertAssoc work pid iid) with h | ⟨d, hd, hp, hi, hn⟩
      · exact Or.inl h
      · exact Or.inr ⟨d, hd, by simpa [dbInsertAssoc] using hp,
          by simpa [dbInsertAssoc] using hi, by simpa [dbInsertAssoc] using hn⟩
    · exact Or.inl ⟨_, rfl⟩

theorem update_core_db_cases (db : DB) (pid : Int) (p : PostUpdate) :
    (update_core db pid p).2.posts = db.posts ∨
    (update_core db pid p).2.posts = (dbUpdatePost db pid (updateFields p)).posts := by
  unfold update_core
  have hc1 : ∀ c1 : DB, c1.posts = db.posts ∨ c1.posts = (dbUpdatePost db pid (updateFields p)).posts →
      (match updInterestIds p with
        | none => updateFinish c1 pid
        | some ids =>
          match insertAssocLoop c1 (dbDeleteAssoc c1 pid) pid ids with
          | .error e => e
          | .ok committed2 => updateFinish committed2 pid).2.posts = db.posts ∨
      (match updInterestIds p with
        | none => updateFinish c1 pid
        | some ids =>
          match insertAssocLoop c1 (dbDeleteAssoc c1 pid) pid ids with
          | .error e => e
          | .ok committed2 => updateFinish committed2 pid).2.posts =
        (dbUpdatePost db pid (updateFields p)).posts := by
    intro c1 h1
    cases hids : updInterestIds p with
    | none => simpa [updateFinish_snd] using h1
    | some ids =>
      rcases insertAssocLoop_cases c1 pid ids (dbDeleteAssoc c1 pid) with ⟨resp, he⟩ | ⟨d, hd, hp, _, _⟩
      · simpa [he] using h1
      · have : d.posts = c1.posts := by simpa [dbDeleteAssoc] using hp
        simp only [hd, updateFinish_snd, this]
        exact h1
  by_cases hfs : (updateFields p).isEmpty
  · simpa [hfs] using hc1 db (Or.inl rfl)
  · simpa [hfs] using hc1 (dbUpdatePost db pid (updateFields p)) (Or.inr rfl)

theorem dbUpdatePost_preserves (db : DB) (pid : Int) (fs : List (String × String)) :
    ∀ r' ∈ (dbUpdatePost db pid fs).posts,
      ∃ r0 ∈ db.posts, r'.post_id = r0.post_id ∧ r'.created_by = r0.created_by := by
  intro r' hm
  simp only [dbUpdatePost, List.mem_map] at hm
  obtain ⟨r0, h0, heq⟩ := hm
  refine ⟨r0, h0, ?_⟩
  subst heq
  split
  · exact ⟨foldl_applyField_post_id _ _, foldl_applyField_created_by _ _⟩
  · exact ⟨rfl, rfl⟩

theorem find?_update_map (l : List PostRow) (pid : Int) (fs : List (String × String)) :
    (l.map (fun r => if r.post_id == pid then fs.foldl applyField r else r)).find?
        (fun r => r.post_id == pid)
      = (l.find? (fun r => r.post_id == pid)).map (fun r => fs.foldl applyField r) := by
  induction l with
  | nil => rfl
  | cons a t ih =>
    by_cases h : (a.post_id == pid) = true
    · have h2 : ((fs.foldl applyField a).post_id == pid) = true := by
        rw [foldl_applyField_post_id]
        exact h
      have hq : a.post_id = pid := by simpa using h
      simp [List.find?_cons, hq, h2]
    · have h' : (a.post_id == pid) = false := Bool.not_eq_true _ |>.mp h
      have h2 : ((fs.foldl applyField a).post_id == pid) = false := by
        rw [foldl_applyField_post_id]
        exact h'
      simp only [List.map_cons, List.find?_cons, h', h2, if_neg, Bool.false_eq_true, if_false]
      exact ih

/-! ## Claims -/

/-- C10: for every post id the link mapping contains exactly the relations
self, collection, interests and author, and the author href embeds the post's
own id (`/users/{post_id}`), not its `created_by`. -/
theorem C10_add_links_relations (post_id : Int) (base_url : String) :
    (add_links post_id base_url).map Prod.fst =
      ["self", "collection", "interests", "author"] ∧
    (add_links post_id base_url).lookup "author" =
      some (.obj [("href", .str (base_url ++ "/users/" ++ toString post_id))]) :=
  ⟨rfl, rfl⟩

/-- C2: `generate_etag` is deterministic — payloads with the same key set and
the same values, in any key insertion order, hash to the identical
fixed-length (32 hex character) token; being a function, two independent
computations agree. -/
theorem C2_generate_etag_deterministic (kvs1 kvs2 : List (String × JValue))
    (hnd : (kvs1.map Prod.fst).Nodup) (hperm : kvs1.Perm kvs2) :
    generate_etag (.obj kvs1) = generate_etag (.obj kvs2) ∧
    (generate_etag (.obj kvs1)).length = 32 :=
  ⟨congrArg md5HexOfString (dumps_obj_perm kvs1 kvs2 hnd hperm),
   generate_etag_length _⟩

theorem C2_generate_etag_deterministic_witness :
    generate_etag (.obj [("a", .num 1), ("b", .str "x")]) =
      generate_etag (.obj [("b", .str "x"), ("a", .num 1)]) ∧
    (generate_etag (.obj [("a", .num 1), ("b", .str "x")])).length = 32 :=
  C2_generate_etag_deterministic _ _ (by decide) (List.Perm.swap _ _ _)

/-- C5 (amended): on every route except `GET /posts/{id}` — list, create,
update, delete, interests — a request whose caller-identity header is absent
or empty is rejected with 401 before any store operation, the store left
untouched; `GET /posts/{id}` performs no identity check at all. -/
theorem C5_auth_all_routes_but_get_one (db : DB) (hs : Headers)
    (h : get_firebase_uid_from_header hs = none) :
    (∀ skip limit iid cb search,
        get_posts db hs skip limit iid cb search = .error resp401) ∧
    (∀ p, create_post db hs p = (resp401, db)) ∧
    (∀ pid p cb im, update_post db hs pid p cb im = (resp401, db)) ∧
    (∀ pid cb, delete_post db hs pid cb = (resp401, db)) ∧
    get_interests db hs = (resp401, db) := by
  refine ⟨?_, ?_, ?_, ?_, ?_⟩ <;> intros <;>
    simp [get_posts, create_post, update_post, delete_post, get_interests, h]

theorem C5_auth_all_routes_but_get_one_witness :
    get_firebase_uid_from_header [] = none ∧
    get_posts db0 [] 0 10 none none none = .error resp401 ∧
    update_post db0 [] 1 ⟨none, none, none, none⟩ 7 none = (resp401, db0) ∧
    delete_post db0 [] 1 7 = (resp401, db0) :=
  ⟨rfl,
   (C5_auth_all_routes_but_get_one db0 [] rfl).1 0 10 none none none,
   (C5_auth_all_routes_but_get_one db0 [] rfl).2.2.1 1 ⟨none, none, none, none⟩ 7 none,
   (C5_auth_all_routes_but_get_one db0 [] rfl).2.2.2.1 1 7⟩

/-- C5 counterexample: a `GET /posts/{id}` request with no caller-identity
header at all is served (200 on an existing post, 404 on a missing one),
never 401 — `get_post` (lines 173–217) performs no identity check. -/
theorem C5_counterexample :
    get_firebase_uid_from_header [] = none ∧
    (get_post db0 [] 1 none).1.status = 200 ∧
    (get_post db0 [] 99 none).1.status = 404 :=
  ⟨rfl, rfl, rfl⟩

theorem update_post_posts_cases (db : DB) (hs : Headers) (pid : Int) (p : PostUpdate)
    (cb : Int) (im : Option String) :
    (update_post db hs pid p cb im).2.posts = db.posts ∨
    (update_post db hs pid p cb im).2.posts = (dbUpdatePost db pid (updateFields p)).posts := by
  unfold update_post
  split
  · exact Or.inl rfl
  · split
    · exact Or.inl rfl
    · split
      · exact Or.inl rfl
      · split
        · split
          · split
            · exact Or.inl rfl
            · exact update_core_db_cases db pid p
          · exact update_core_db_cases db pid p
        · exact update_core_db_cases db pid p

theorem delete_post_posts_cases (db : DB) (hs : Headers) (pid cb : Int) :
    (delete_post db hs pid cb).2.posts = db.posts ∨
    (delete_post db hs pid cb).2.posts = db.posts.filter (fun r => !(r.post_id == pid)) := by
  unfold delete_post
  split
  · exact Or.inl rfl
  · split
    · exact Or.inl rfl
    · split
      · exact Or.inl rfl
      · exact Or.inr rfl

/-- C6: an update or delete whose `created_by` query parameter differs from
the stored creator yields 403 with the store unchanged; and no operation ever
rewrites a stored row's `created_by` (update maps rows preserving creator,
delete only removes rows, create touches no existing row). -/
theorem C6_ownership_enforcement (db : DB) (hs : Headers) (pid cb : Int)
    (p : PostUpdate) (im : Option String) (r : PostRow)
    (hauth : get_firebase_uid_from_header hs ≠ none)
    (hr : fetchPost db pid = some r) (hne : r.created_by ≠ cb) :
    update_post db hs pid p cb im =
      (errResp 403 "You can only update posts you created", db) ∧
    delete_post db hs pid cb =
      (errResp 403 "You can only delete posts you created", db) ∧
    (∀ pid' p' cb' im', ∀ r' ∈ (update_post db hs pid' p' cb' im').2.posts,
        ∃ r0 ∈ db.posts, r'.post_id = r0.post_id ∧ r'.created_by = r0.created_by) ∧
    (∀ pid' cb', ∀ r' ∈ (delete_post db hs pid' cb').2.posts,
        ∃ r0 ∈ db.posts, r'.post_id = r0.post_id ∧ r'.created_by = r0.created_by) ∧
    (∀ p', (create_post db hs p').2 = db) := by
  have hA : (get_firebase_uid_from_header hs).isNone = false := by
    cases hfu : get_firebase_uid_from_header hs
    · exact absurd hfu hauth
    · rfl
  refine ⟨?_, ?_, ?_, ?_, ?_⟩
  · simp [update_post, hA, hr, hne]
  · simp [delete_post, hA, hr, hne]
  · intro pid' p' cb' im' r' hm
    rcases update_post_posts_cases db hs pid' p' cb' im' with hcase | hcase
    · rw [hcase] at hm
      exact ⟨r', hm, rfl, rfl⟩
    · rw [hcase] at hm
      exact dbUpdatePost_preserves db pid' (updateFields p') r' hm
  · intro pid' cb' r' hm
    rcases delete_post_posts_cases db hs pid' cb' with hcase | hcase
    · rw [hcase] at hm
      exact ⟨r', hm, rfl, rfl⟩
    · rw [hcase] at hm
      exact ⟨r', List.mem_of_mem_filter hm, rfl, rfl⟩
  · intro p'
    unfold create_post
    split
    · rfl
    · rfl

theorem C6_ownership_enforcement_witness :
    update_post db0 hs0 1 ⟨some (some "X"), none, none, none⟩ 999 none =
      (errResp 403 "You can only update posts you created", db0) ∧
    delete_post db0 hs0 1 999 =
      (errResp 403 "You can only delete posts you created", db0) :=
  ⟨(C6_ownership_enforcement db0 hs0 1 999 ⟨some (some "X"), none, none, none⟩ none rowA
      (by decide) rfl (by decide)).1,
   (C6_ownership_enforcement db0 hs0 1 999 ⟨some (some "X"), none, none, none⟩ none rowA
      (by decide) rfl (by decide)).2.1⟩

/-- C8: on a successful list request, `has_more` is true iff
`skip + limit < total`; `next` is non-null iff `skip + limit < total` and
points to offset `skip + limit`; `prev` is non-null iff `skip > 0` and points
to `max 0 (skip - limit)`; and `last` points to
`max 0 (floor ((total - 1) / limit) * limit)`. -/
theorem C8_pagination_arithmetic (db : DB) (hs : Headers) (skip limit : Int)
    (iid cb : Option Int) (search : Option String)
    (hauth : get_firebase_uid_from_header hs ≠ none)
    (hskip : 0 ≤ skip) (hlimit : 1 ≤ limit) :
    ∃ out, get_posts db hs skip limit iid cb search = .ok out ∧
      (out.has_more = true ↔ skip + limit < out.total) ∧
      (out.link_next = if skip + limit < out.total
          then some (pageHref (skip + limit) limit) else none) ∧
      (out.link_prev = if 0 < skip
          then some (pageHref (max 0 (skip - limit)) limit) else none) ∧
      out.link_last = pageHref (max 0 ((out.total - 1).fdiv limit * limit)) limit := by
  have hA : (get_firebase_uid_from_header hs).isNone = false := by
    cases hfu : get_firebase_uid_from_header hs
    · exact absurd hfu hauth
    · rfl
  unfold get_posts
  rw [hA]
  simp only [Bool.false_eq_true, if_false]
  exact ⟨_, rfl, decide_eq_true_iff, rfl, rfl, rfl⟩

theorem C8_pagination_arithmetic_witness :
    ∃ out, get_posts db25 hs0 20 10 none none none = .ok out ∧
      (out.has_more = true ↔ (20 : Int) + 10 < out.total) ∧
      (out.link_next = if (20 : Int) + 10 < out.total
          then some (pageHref ((20 : Int) + 10) 10) else none) ∧
      (out.link_prev = if (0 : Int) < 20
          then some (pageHref (max 0 ((20 : Int) - 10)) 10) else none) ∧
      out.link_last = pageHref (max 0 ((out.total - 1).fdiv 10 * 10)) 10 :=
  C8_pagination_arithmetic db25 hs0 20 10 none none none (by decide) (by decide) (by decide)

/-- C9 (amended): filters compose conjunctively on the returned page, but a
filter is applied only when its parameter is truthy — a nonzero
`interest_id`, a nonzero `created_by`, a non-empty `search` (supplying the
value `0` skips the clause entirely). -/
theorem C9_filters_conjunctive (db : DB) (hs : Headers) (skip limit : Int)
    (iid cb : Option Int) (search : Option String) (r : PostRow)
    (hr : r ∈ get_posts_rows db hs skip limit iid cb search) :
    (∀ i, iid = some i → i ≠ 0 →
        db.postInterests.any (fun pr => pr.1 == r.post_id && pr.2 == i) = true) ∧
    (∀ c, cb = some c → c ≠ 0 → r.created_by = c) ∧
    (∀ s, search = some s → s ≠ "" →
        (sqlLike s r.title ||
          (match r.body with
           | some b => sqlLike s b
           | none => false)) = true) := by
  unfold get_posts_rows get_posts at hr
  split at hr
  next heq =>
    split at heq
    · exact absurd heq (by simp)
    · have hmem : r ∈ db.posts.filter (rowMatches db iid cb search) := by
        cases heq
        have h2 := List.mem_of_mem_take hr
        have h3 := List.mem_of_mem_drop h2
        exact ((List.perm_insertionSort _ _).mem_iff).mp h3
      have hm : rowMatches db iid cb search r = true := (List.mem_filter.mp hmem).2
      simp only [rowMatches, Bool.and_eq_true] at hm
      refine ⟨?_, ?_, ?_⟩
      · intro i hi hne
        subst hi
        have := hm.1.1
        simpa [pyTruthyInt, hne] using this
      · intro c hc hne
        subst hc
        have := hm.1.2
        simp [pyTruthyInt, hne] at this
        exact this
      · intro s hsome hne
        subst hsome
        have := hm.2
        simpa [pyTruthyStr, hne] using this
  next => exact absurd hr (List.not_mem_nil r)

theorem C9_filters_conjunctive_witness :
    rowA ∈ get_posts_rows db0 hs0 0 10 (some 1) (some 7) (some "hello") ∧
    db0.postInterests.any (fun pr => pr.1 == rowA.post_id && pr.2 == 1) = true ∧
    rowA.created_by = 7 := by
  have h := C9_filters_conjunctive db0 hs0 0 10 (some 1) (some 7) (some "hello")
    rowA (by decide)
  exact ⟨by decide, h.1 1 rfl (by decide), h.2.1 7 rfl (by decide)⟩

/-- C9 counterexample: with `created_by=0` supplied, the source's
`if created_by:` guard is falsy, the creator clause is never added, and a
post whose creator is 7 is returned — the claim's "including the value 0"
fails. -/
theorem C9_counterexample :
    rowA ∈ get_posts_rows db0 hs0 0 10 none (some 0) none ∧
    rowA.created_by ≠ 0 :=
  ⟨by decide, by decide⟩

/-- C7: only fields present and non-null in the payload become column
assignments; a PUT supplying only `title` rewrites exactly that column and
leaves body, image_url and the associations unchanged; and an all-unset
payload executes no write at all yet succeeds, returning the unchanged
resource. -/
theorem C7_sparse_update (db : DB) (hs : Headers) (pid cb : Int) (r : PostRow) (t : String)
    (hauth : get_firebase_uid_from_header hs ≠ none)
    (hr : fetchPost db pid = some r) (hcb : r.created_by = cb) :
    (∀ q : PostUpdate,
      (("title" ∈ (updateFields q).map Prod.fst) ↔ ∃ v, q.title = some (some v)) ∧
      (("body" ∈ (updateFields q).map Prod.fst) ↔ ∃ v, q.body = some (some v)) ∧
      (("image_url" ∈ (updateFields q).map Prod.fst) ↔
        ∃ v, q.image_url = some (some v))) ∧
    ((update_post db hs pid ⟨some (some t), none, none, none⟩ cb none).1.status = 200 ∧
     (update_post db hs pid ⟨some (some t), none, none, none⟩ cb none).2 =
       { db with posts := (db.posts.map
           (fun r0 => if r0.post_id == pid then { r0 with title := t } else r0)) }) ∧
    (updateFields ⟨none, none, none, none⟩ = [] ∧
     updInterestIds ⟨none, none, none, none⟩ = none ∧
     update_post db hs pid ⟨none, none, none, none⟩ cb none =
       (⟨200, some (.obj (convertCreatedAt (postDict r ++
          [("interests", .arr (get_post_interests db pid)),
           ("links", .obj (add_links pid))])))⟩, db)) := by
  have hA : (get_firebase_uid_from_header hs).isNone = false := by
    cases hfu : get_firebase_uid_from_header hs
    · exact absurd hfu hauth
    · rfl
  refine ⟨?_, ?_, ?_⟩
  · rintro ⟨qt, qb, qi, qiid⟩
    refine ⟨?_, ?_, ?_⟩ <;>
      (rcases qt with _ | (_ | vt) <;> rcases qb with _ | (_ | vb) <;>
        rcases qi with _ | (_ | vi) <;> simp [updateFields])
  · have hpath : update_post db hs pid ⟨some (some t), none, none, none⟩ cb none =
        update_core db pid ⟨some (some t), none, none, none⟩ := by
      simp [update_post, hA, hr, hcb]
    have hcore : update_core db pid ⟨some (some t), none, none, none⟩ =
        updateFinish (dbUpdatePost db pid [("title", t)]) pid := by
      simp [update_core, updateFields, updInterestIds]
    have hfetch : fetchPost (dbUpdatePost db pid [("title", t)]) pid =
        some (List.foldl applyField r [("title", t)]) := by
      show (db.posts.map (fun r0 =>
          if r0.post_id == pid then [("title", t)].foldl applyField r0 else r0)).find?
          (fun r0 => r0.post_id == pid) = _
      rw [find?_update_map]
      rw [show db.posts.find? (fun r0 => r0.post_id == pid) = some r from hr]
      rfl
    have hupd := hpath.trans hcore
    constructor
    · rw [hupd]
      unfold updateFinish
      rw [hfetch]
    · rw [hupd, updateFinish_snd]
      rfl
  · refine ⟨rfl, rfl, ?_⟩
    have hpath0 : update_post db hs pid ⟨none, none, none, none⟩ cb none =
        update_core db pid ⟨none, none, none, none⟩ := by
      simp [update_post, hA, hr, hcb]
    have hcore0 : update_core db pid ⟨none, none, none, none⟩ = updateFinish db pid := by
      simp [update_core, updateFields, updInterestIds]
    rw [hpath0, hcore0]
    unfold updateFinish
    rw [hr]

theorem C7_sparse_update_witness :
    (update_post db0 hs0 1 ⟨some (some "New"), none, none, none⟩ 7 none).1.status = 200 ∧
    (update_post db0 hs0 1 ⟨some (some "New"), none, none, none⟩ 7 none).2 =
      { db0 with posts := (db0.posts.map
          (fun r0 => if r0.post_id == (1 : Int) then { r0 with title := "New" } else r0)) } ∧
    update_post db0 hs0 1 ⟨none, none, none, none⟩ 7 none =
      (⟨200, some (.obj (convertCreatedAt (postDict rowA ++
          [("interests", .arr (get_post_interests db0 1)),
           ("links", .obj (add_links 1))])))⟩, db0) :=
  ⟨(C7_sparse_update db0 hs0 1 7 rowA "New" (by decide) rfl rfl).2.1.1,
   (C7_sparse_update db0 hs0 1 7 rowA "New" (by decide) rfl rfl).2.1.2,
   (C7_sparse_update db0 hs0 1 7 rowA "New" (by decide) rfl rfl).2.2.2.2⟩

/-- C1 (amended): on an update that passes the existence and ownership checks
and supplies a *non-empty* If-Match header, a stripped token differing from
the fingerprint of the current stored state (including interests) yields 412
with the store unchanged, and a matching token lets the update proceed.  (An
If-Match header supplied with the empty value is falsy in the source's
`if if_match:` guard and skips the check entirely.) -/
theorem C1_conditional_put (db : DB) (hs : Headers) (pid cb : Int) (p : PostUpdate)
    (tok : String) (r : PostRow)
    (hauth : get_firebase_uid_from_header hs ≠ none)
    (hr : fetchPost db pid = some r) (hcb : r.created_by = cb) (htok : tok ≠ "") :
    (stripQuotes tok ≠ updateExistingEtag db r pid →
      update_post db hs pid p cb (some tok) =
        (errResp 412 "Precondition Failed: eTag mismatch", db)) ∧
    (stripQuotes tok = updateExistingEtag db r pid →
      update_post db hs pid p cb (some tok) = update_core db pid p) := by
  have hA : (get_firebase_uid_from_header hs).isNone = false := by
    cases hfu : get_firebase_uid_from_header hs
    · exact absurd hfu hauth
    · rfl
  constructor
  · intro hne
    simp [update_post, hA, hr, hcb, htok, hne]
  · intro heq
    simp [update_post, hA, hr, hcb, htok, heq]

theorem C1_conditional_put_witness :
    (update_post db0 hs0 1 ⟨some (some "X"), none, none, none⟩ 7 (some "zzz") =
      (errResp 412 "Precondition Failed: eTag mismatch", db0)) ∧
    (update_post db0 hs0 1 ⟨some (some "X"), none, none, none⟩ 7
        (some "\"d35808228622bd92da00e266b7c84960\"") =
      update_core db0 1 ⟨some (some "X"), none, none, none⟩) :=
  ⟨(C1_conditional_put db0 hs0 1 7 ⟨some (some "X"), none, none, none⟩ "zzz" rowA
      (by decide) rfl rfl (by decide)).1 (by decide),
   (C1_conditional_put db0 hs0 1 7 ⟨some (some "X"), none, none, none⟩
      "\"d35808228622bd92da00e266b7c84960\"" rowA
      (by decide) rfl rfl (by decide)).2 (by decide)⟩

/-- C1 counterexample: an If-Match header supplied with the empty token
differs (once quote-stripped) from the recomputed fingerprint, yet the
operation does not fail with 412 — the falsy guard skips the check, the
update proceeds with 200 and the store changes. -/
theorem C1_counterexample :
    (update_post db0 hs0 1 ⟨some (some "X"), none, none, none⟩ 7 (some "")).1.status = 200 ∧
    stripQuotes "" ≠ updateExistingEtag db0 rowA 1 ∧
    (update_post db0 hs0 1 ⟨some (some "X"), none, none, none⟩ 7 (some "")).2 ≠ db0 := by
  refine ⟨rfl, ?_, by decide⟩
  intro h
  have h32 : (updateExistingEtag db0 rowA 1).length = 32 := generate_etag_length _
  rw [← h] at h32
  exact absurd h32 (by decide)

/-- C3: conditional GET — 404 when the post is absent; 304 with empty body
when the stripped If-None-Match token equals the fingerprint of the enriched
current state; 200 with the body and its links when the header is absent or
its stripped token differs. -/
theorem C3_conditional_get (db : DB) (hs : Headers) (pid : Int) (inm : Option String) :
    (fetchPost db pid = none → get_post db hs pid inm = (errResp 404 "Post not found", db)) ∧
    (∀ r, fetchPost db pid = some r →
      ((∀ t, inm = some t →
          stripQuotes t ≠ generate_etag (.obj (getPostEnriched db r pid))) →
        get_post db hs pid inm =
          (⟨200, some (.obj (getPostEnriched db r pid ++
            [("links", .obj (add_links pid))]))⟩, db)) ∧
      (∀ t, inm = some t →
        stripQuotes t = generate_etag (.obj (getPostEnriched db r pid)) →
        get_post db hs pid inm = (⟨304, none⟩, db))) := by
  constructor
  · intro h
    simp [get_post, h]
  · intro r hr
    constructor
    · intro hdiff
      cases inm with
      | none => simp [get_post, hr]
      | some t =>
        have hd := hdiff t rfl
        by_cases ht : t = ""
        · subst ht
          simp [get_post, hr]
        · simp [get_post, hr, ht, hd]
    · intro t hinm heq
      subst hinm
      have ht : t ≠ "" := by
        intro h0
        subst h0
        have h32 : (generate_etag (.obj (getPostEnriched db r pid))).length = 32 :=
          generate_etag_length _
        rw [← heq] at h32
        exact absurd h32 (by decide)
      simp [get_post, hr, ht, heq]

theorem C3_conditional_get_witness :
    get_post db0 hs0 99 none = (errResp 404 "Post not found", db0) ∧
    get_post db0 hs0 1 (some "\"86995d334eb2b15d396f95abcf151e43\"") = (⟨304, none⟩, db0) ∧
    get_post db0 hs0 1 (some "stale") =
      (⟨200, some (.obj (getPostEnriched db0 rowA 1 ++
        [("links", .obj (add_links 1))]))⟩, db0) :=
  ⟨(C3_conditional_get db0 hs0 99 none).1 rfl,
   ((C3_conditional_get db0 hs0 1 (some "\"86995d334eb2b15d396f95abcf151e43\"")).2 rowA
      rfl).2 "\"86995d334eb2b15d396f95abcf151e43\"" rfl (by decide),
   ((C3_conditional_get db0 hs0 1 (some "stale")).2 rowA rfl).1
      (fun t ht => by cases ht; decide)⟩

/-- C4 (code bug): the rollback the spec requires does not happen.  On an
update carrying both a field assignment and a bad interest id, the code
answers 400 naming the id but the committed field assignment persists (only
the uncommitted association statements are discarded); on create, the
handler raises before any statement (`PostCreate` lacks `created_by`), and
the create logic as written commits the post row before validating the
associations, leaving an orphaned post. -/
theorem C4_no_rollback_on_invalid_interest :
    (update_post db0 hs0 1 ⟨some (some "X"), none, none, some (some [999])⟩ 7 none).1.status
      = 400 ∧
    (update_post db0 hs0 1 ⟨some (some "X"), none, none, some (some [999])⟩ 7 none).1.body
      = some (.obj [("detail", .str "Interest 999 not found")]) ∧
    (update_post db0 hs0 1 ⟨some (some "X"), none, none, some (some [999])⟩ 7
        none).2.posts.map PostRow.title = ["X", "Second"] ∧
    (update_post db0 hs0 1 ⟨some (some "X"), none, none, some (some [999])⟩ 7
        none).2.postInterests = [(1, 1), (1, 2)] ∧
    create_post db0 hs0 ⟨"T", none, none, some [999]⟩ =
      (⟨500, some (.str "Internal Server Error")⟩, db0) ∧
    (create_post_body db0 "T" none none 7 (some [999]) dtA).1.status = 400 ∧
    (create_post_body db0 "T" none none 7 (some [999]) dtA).2.posts.length = 3 ∧
    (create_post_body db0 "T" none none 7 (some [999]) dtA).2.postInterests =
      [(1, 1), (1, 2)] :=
  ⟨rfl, rfl, by decide, by decide, rfl, rfl, by decide, by decide⟩

end Feed
